import Mathlib

/-!
Shallow embedding of the vendor/third-party risk-assessment questionnaire
application (a single-file Flask app, `app.py`) and proofs about its
CRUD and form-binding behaviour.

The persistent SQLite database is modelled as `App.DB`: one list per table,
kept in insertion order, together with the next surrogate key for each
table (SQLite assigns integer primary keys monotonically starting at 1).
Each HTTP route handler becomes a pure function from the committed
database state (plus the submitted form, a key-value list mirroring
`request.form`) to an `Outcome` and the next committed state.  A commit
that the database rejects (NOT NULL violation) or an unhandled Python
exception (werkzeug hashing a `None` password) is an error `Outcome`
whose returned state is the unchanged input state, matching transaction
rollback.  `request.form.get(k)` returns `None` for a missing key, which
is modelled by `Option String`.
-/

namespace App

/-- Row of the `users` table: `id`, unique non-null `username`,
non-null `password_hash`. -/
structure User where
  id : Nat
  username : String
  password_hash : String
deriving DecidableEq, Repr

/-- Row of the `templates` table: `id`, non-null `name` and
`template_type`, nullable `description`. -/
structure Template where
  id : Nat
  name : String
  template_type : String
  description : Option String
deriving DecidableEq, Repr

/-- Row of the `questions` table: `id`, non-null `template_id` and `text`,
nullable `help_text`, `required` (default true), nullable `question_type`
(default "text" on insert), nullable `options_json`. -/
structure Question where
  id : Nat
  template_id : Nat
  text : String
  help_text : Option String
  required : Bool
  question_type : Option String
  options_json : Option String
deriving DecidableEq, Repr

/-- Row of the `assessments` table: `id`, non-null `template_id` and
`name`, nullable `vendor_name` and `product_name`, `created_at` timestamp
(modelled as a `Nat` clock reading supplied to the create operation, the
way `datetime.utcnow` supplies it). -/
structure Assessment where
  id : Nat
  template_id : Nat
  name : String
  vendor_name : Option String
  product_name : Option String
  created_at : Nat
deriving DecidableEq, Repr

/-- Row of the `answers` table: `id`, non-null `assessment_id` and
`question_id`, nullable `answer_text`. -/
structure Answer where
  id : Nat
  assessment_id : Nat
  question_id : Nat
  answer_text : Option String
deriving DecidableEq, Repr

/-- The committed database state: the five tables in insertion order and
the next auto-assigned primary key of each. -/
structure DB where
  users : List User
  templates : List Template
  questions : List Question
  assessments : List Assessment
  answers : List Answer
  next_user_id : Nat
  next_template_id : Nat
  next_question_id : Nat
  next_assessment_id : Nat
  next_answer_id : Nat
deriving DecidableEq, Repr

/-- Result of one request: either an HTTP 404 (`get_or_404` on a missing
row), a flash-message redirect back to the form (`validationError` for a
missing required field, `conflictError` for a duplicate username,
`authError` for bad credentials), an unhandled exception
(`integrityError` for a NOT NULL violation at commit, `typeError` for
werkzeug hashing a missing password), or success carrying the id the
handler redirects to / logs in as. -/
inductive Outcome where
  | notFound
  | validationError
  | conflictError
  | authError
  | integrityError
  | typeError
  | ok (id : Nat)
deriving DecidableEq, Repr

/-- The submitted HTML form, as the key-value multidict Flask exposes. -/
def Form := List (String × String)

/-- Model of `request.form.get(key)`: the value when present, else none. -/
def formGet (form : Form) (key : String) : Option String :=
  List.lookup key form

/-- Python truthiness of an optional string: `None` and `""` are falsy. -/
def truthy : Option String → Bool
  | none => false
  | some s => s != ""

/-- Model of `Template.query.get(template_id)` (primary-key lookup). -/
def findTemplate (db : DB) (tid : Nat) : Option Template :=
  db.templates.find? (fun t => t.id == tid)

/-- Model of `Question.query.get(question_id)` (primary-key lookup). -/
def findQuestion (db : DB) (qid : Nat) : Option Question :=
  db.questions.find? (fun q => q.id == qid)

/-- Model of `Assessment.query.get(assessment_id)` (primary-key lookup). -/
def findAssessment (db : DB) (aid : Nat) : Option Assessment :=
  db.assessments.find? (fun a => a.id == aid)

/-- Model of `Question.query.filter_by(template_id=...).all()`: the rows
in storage (insertion) order. -/
def templateQuestions (db : DB) (tid : Nat) : List Question :=
  db.questions.filter (fun q => q.template_id == tid)

/-- Model of iterating `assessment.answers`: the answer rows of one
assessment in storage (insertion) order. -/
def assessmentAnswers (db : DB) (aid : Nat) : List Answer :=
  db.answers.filter (fun a => a.assessment_id == aid)

/-- Model of `werkzeug.generate_password_hash`: an injective tag.  The
real function salts, but its only observable contract here is that
`check_password_hash (generate_password_hash p) q` holds exactly for
`q = p`, which this deterministic model preserves. -/
def hashPassword (p : String) : String :=
  "pbkdf2$" ++ p

/-- Model of `werkzeug.check_password_hash`. -/
def checkPassword (hash p : String) : Bool :=
  hash == hashPassword p

/-- Model of `User.query.filter_by(username=username).first()` being
non-null.  SQLAlchemy renders `filter_by(username=None)` as
`username IS NULL`, which matches no row of the NOT NULL column. -/
def usernameConflict (db : DB) (username : Option String) : Bool :=
  match username with
  | none => false
  | some s => db.users.any (fun u => u.username == s)

/-- Route `POST /register`.  Checks the duplicate-username conflict first
and flashes back to the form on conflict.  Otherwise it builds the user:
`set_password` crashes with a `TypeError` when the password field is
missing (werkzeug cannot hash `None`), and the commit violates the
NOT NULL constraint on `username` when that field is missing.  No
missing-field validation exists before those crashes. -/
def register (db : DB) (form : Form) : Outcome × DB :=
  let username := formGet form "username"
  let password := formGet form "password"
  if usernameConflict db username then
    (Outcome.conflictError, db)
  else
    match password with
    | none => (Outcome.typeError, db)
    | some p =>
      match username with
      | none => (Outcome.integrityError, db)
      | some s =>
        (Outcome.ok db.next_user_id,
         { db with
             users := db.users ++ [⟨db.next_user_id, s, hashPassword p⟩],
             next_user_id := db.next_user_id + 1 })

/-- Route `POST /login`: look the user up by username, check the password,
establish the session on match (`ok` with the user id), flash a generic
error otherwise.  A missing password reaching `check_password` crashes in
werkzeug the same way `set_password` does. -/
def login (db : DB) (username password : Option String) : Outcome :=
  match username with
  | none => Outcome.authError
  | some s =>
    match db.users.find? (fun u => u.username == s) with
    | none => Outcome.authError
    | some u =>
      match password with
      | none => Outcome.typeError
      | some p =>
        if checkPassword u.password_hash p then Outcome.ok u.id
        else Outcome.authError

/-- The six question texts seeded into the due-diligence template. -/
def dd_questions : List String :=
  ["What is the legal name of the vendor?",
   "Describe the services the vendor will provide.",
   "Will the vendor process personal data?",
   "Will the vendor process special categories of personal data?",
   "Where will the data be stored and processed?",
   "Does the vendor have security certifications?"]

/-- The six question texts seeded into the DPIA template. -/
def dpia_questions : List String :=
  ["Describe the processing activity.",
   "What types of personal data are processed?",
   "Who are the data subjects?",
   "What risks exist?",
   "What safeguards are implemented?",
   "Any data transfer outside the EEA?"]

/-- Seed helper: the question rows inserted for one template, with
consecutive ids starting at `startId`, `question_type="textarea"`, and
default `required=True`, no help text and no options. -/
def mkSeedQuestions (tid startId : Nat) : List String → List Question
  | [] => []
  | t :: ts => ⟨startId, tid, t, none, true, some "textarea", none⟩ ::
               mkSeedQuestions tid (startId + 1) ts

/-- Function `seed_default_templates`: a no-op unless the template table
is empty; otherwise inserts the two fixed templates and their six
questions each, in source order (template ids consecutive, the six
due-diligence question rows before the six DPIA ones). -/
def seed_default_templates (db : DB) : DB :=
  if db.templates.length > 0 then db
  else
    let t1 : Template :=
      ⟨db.next_template_id, "Third-Party Due Diligence Assessment",
       "Due Diligence", some "Basic vendor due diligence questionnaire."⟩
    let t2 : Template :=
      ⟨db.next_template_id + 1, "Data Protection Impact Assessment (DPIA)",
       "DPIA", some "High-level DPIA for internal products."⟩
    { db with
        templates := db.templates ++ [t1, t2],
        questions := db.questions
          ++ mkSeedQuestions t1.id db.next_question_id dd_questions
          ++ mkSeedQuestions t2.id (db.next_question_id + 6) dpia_questions,
        next_template_id := db.next_template_id + 2,
        next_question_id := db.next_question_id + 12 }

/-- Route `POST /templates/new`: create a template after checking that
name and type are both truthy, else flash back to the form. -/
def template_new (db : DB) (form : Form) : Outcome × DB :=
  let name := formGet form "name"
  let template_type := formGet form "template_type"
  match name, template_type with
  | some n, some ty =>
    if n != "" && ty != "" then
      (Outcome.ok db.next_template_id,
       { db with
           templates := db.templates ++
             [⟨db.next_template_id, n, ty, formGet form "description"⟩],
           next_template_id := db.next_template_id + 1 })
    else (Outcome.validationError, db)
  | _, _ => (Outcome.validationError, db)

/-- Route `POST /templates/{id}` (add a question): 404 when the template
is missing; when `question_text` is truthy, append a question with the
submitted help text and type (type defaulting to "text" when the field is
absent); when `question_text` is blank or absent, change nothing and
redirect back normally. -/
def template_edit_post (db : DB) (template_id : Nat) (form : Form) :
    Outcome × DB :=
  match findTemplate db template_id with
  | none => (Outcome.notFound, db)
  | some t =>
    let q_text := formGet form "question_text"
    let q_help := formGet form "help_text"
    let q_type := (formGet form "question_type").getD "text"
    match q_text with
    | some s =>
      if s != "" then
        (Outcome.ok t.id,
         { db with
             questions := db.questions ++
               [⟨db.next_question_id, t.id, s, q_help, true, some q_type, none⟩],
             next_question_id := db.next_question_id + 1 })
      else (Outcome.ok t.id, db)
    | none => (Outcome.ok t.id, db)

/-- Route `GET /templates/{id}`: the template and its question list as
rendered by the editing view. -/
def template_edit_get (db : DB) (template_id : Nat) :
    Option (Template × List Question) :=
  (findTemplate db template_id).map (fun t => (t, templateQuestions db t.id))

/-- Route `POST /templates/{tid}/questions/{qid}/delete`: 404 when the
question id is missing; otherwise delete that row.  The template id from
the path is used only for the redirect. -/
def question_delete (db : DB) (template_id question_id : Nat) :
    Outcome × DB :=
  match findQuestion db question_id with
  | none => (Outcome.notFound, db)
  | some _ =>
    (Outcome.ok template_id,
     { db with questions := db.questions.filter (fun q => q.id != question_id) })

/-- Route `POST /templates/{tid}/questions/{qid}/edit`: 404 when the path
template or the question is missing; otherwise assign `text`, `help_text`
and `question_type` from the form (each `None` when absent) and commit.
The commit violates the NOT NULL constraint on `questions.text` when the
`text` field is absent; otherwise the row is overwritten.  No check ties
the question to the path template. -/
def question_edit_post (db : DB) (template_id question_id : Nat)
    (form : Form) : Outcome × DB :=
  match findTemplate db template_id with
  | none => (Outcome.notFound, db)
  | some _ =>
    match findQuestion db question_id with
    | none => (Outcome.notFound, db)
    | some _ =>
      match formGet form "text" with
      | none => (Outcome.integrityError, db)
      | some t =>
        (Outcome.ok template_id,
         { db with
             questions := db.questions.map (fun q =>
               if q.id == question_id then
                 { q with
                     text := t,
                     help_text := formGet form "help_text",
                     question_type := formGet form "question_type" }
               else q) })

/-- Insertion step of sorting by a numeric key in descending order. -/
def insertByDesc (key : α → Nat) (x : α) : List α → List α
  | [] => [x]
  | y :: ys =>
    if key y < key x then x :: y :: ys else y :: insertByDesc key x ys

/-- Sort by a numeric key in descending order (model of SQL
`ORDER BY key DESC`; ties keep no guaranteed order in SQL, and every
theorem below assumes distinct keys, where all correct sorts agree). -/
def sortByDesc (key : α → Nat) : List α → List α
  | [] => []
  | x :: xs => insertByDesc key x (sortByDesc key xs)

/-- Route `GET /templates`: all templates ordered by id descending. -/
def templates_list (db : DB) : List Template :=
  sortByDesc (fun t => t.id) db.templates

/-- Route `GET /assessments`: all assessments ordered by `created_at`
descending. -/
def assessments_list (db : DB) : List Assessment :=
  sortByDesc (fun a => a.created_at) db.assessments

/-- Per-question form field name used by the assessment form,
`question_{id}`. -/
def qField (qid : Nat) : String :=
  "question_" ++ toString qid

/-- Answer rows created by the submission loop of `assessment_new`: one
per question of the snapshot, in order, with consecutive ids from
`startId`, each holding the form value of its question's field (absent
when the field is missing). -/
def mkAnswers (assessment_id startId : Nat) (form : Form) :
    List Question → List Answer
  | [] => []
  | q :: qs =>
    ⟨startId, assessment_id, q.id, formGet form (qField q.id)⟩ ::
    mkAnswers assessment_id (startId + 1) form qs

/-- Route `POST /assessments/new/{templateId}`: 404 when the template is
missing; flash back when the name is blank or absent; otherwise commit
the new assessment together with one answer per question of the template
snapshot, as one transaction. -/
def assessment_new_post (db : DB) (template_id : Nat) (form : Form)
    (now : Nat) : Outcome × DB :=
  match findTemplate db template_id with
  | none => (Outcome.notFound, db)
  | some t =>
    let questions := templateQuestions db t.id
    let name := formGet form "assessment_name"
    if truthy name then
      match name with
      | some n =>
        let aid := db.next_assessment_id
        (Outcome.ok aid,
         { db with
             assessments := db.assessments ++
               [⟨aid, t.id, n, formGet form "vendor_name",
                 formGet form "product_name", now⟩],
             answers := db.answers ++ mkAnswers aid db.next_answer_id form questions,
             next_assessment_id := aid + 1,
             next_answer_id := db.next_answer_id + questions.length })
      | none => (Outcome.validationError, db)
    else (Outcome.validationError, db)

/-- Route `GET /assessments/new/{templateId}`: the template and the
question list the blank form is rendered from. -/
def assessment_new_get (db : DB) (template_id : Nat) :
    Option (Template × List Question) :=
  (findTemplate db template_id).map (fun t => (t, templateQuestions db t.id))

/-- The `answers_by_question` dictionary comprehension: question id to
answer, from the assessment's answers in order. -/
def answersByQuestion (ansList : List Answer) : List (Nat × Answer) :=
  ansList.map (fun a => (a.question_id, a))

/-- Lookup in the rendered dictionary.  A Python dict keeps the last
binding of a duplicated key, hence the reversed lookup. -/
def dictGet (d : List (Nat × Answer)) (k : Nat) : Option Answer :=
  List.lookup k d.reverse

/-- Route `GET /assessments/{id}`: 404 when missing, else the assessment
together with its answers keyed by question id. -/
def assessment_view (db : DB) (assessment_id : Nat) :
    Option (Assessment × List (Nat × Answer)) :=
  (findAssessment db assessment_id).map (fun a =>
    (a, answersByQuestion (assessmentAnswers db assessment_id)))

/-- The freshly created, empty database (SQLite keys start at 1). -/
def db0 : DB := ⟨[], [], [], [], [], 1, 1, 1, 1, 1⟩

/-- Sample template used in concrete runs. -/
def tVendor : Template := ⟨1, "Vendor Check", "Due Diligence", none⟩

/-- First question of the sample template. -/
def q1 : Question := ⟨1, 1, "Data stored where?", none, true, some "text", none⟩

/-- Second question of the sample template. -/
def q2 : Question := ⟨2, 1, "Subprocessors used?", none, true, some "text", none⟩

/-- Database holding one template with two questions. -/
def dbT : DB :=
  { db0 with
      templates := [tVendor], questions := [q1, q2],
      next_template_id := 2, next_question_id := 3 }

/-- A second template unrelated to the sample questions. -/
def tOther : Template := ⟨2, "Other Template", "DPIA", none⟩

/-- Database holding two templates; both questions belong to template 1. -/
def dbT2 : DB :=
  { dbT with templates := [tVendor, tOther], next_template_id := 3 }

/-- Form submission answering only the first question. -/
def acmeForm : Form := [("assessment_name", "Acme Review"), ("question_1", "yes")]

/-- Sample assessment created from the sample template. -/
def aAcme : Assessment := ⟨1, 1, "Acme Review", none, none, 10⟩

/-- Recorded answer of question 1 in the sample assessment. -/
def ansYes : Answer := ⟨1, 1, 1, some "yes"⟩

/-- Recorded (empty) answer of question 2 in the sample assessment. -/
def ansNone : Answer := ⟨2, 1, 2, none⟩

/-- Database holding the sample template, its questions, one assessment
and its two answers. -/
def dbAns : DB :=
  { dbT with
      assessments := [aAcme], answers := [ansYes, ansNone],
      next_assessment_id := 2, next_answer_id := 3 }

/-- Database holding two assessments with increasing timestamps. -/
def dbTwoAssess : DB :=
  { dbT with
      assessments := [⟨1, 1, "First", none, none, 5⟩,
                      ⟨2, 1, "Second", none, none, 7⟩],
      next_assessment_id := 3 }

/-! Helper lemmas shared by the claim theorems below. -/

theorem mkAnswers_length (aid s : Nat) (form : Form) (qs : List Question) :
    (mkAnswers aid s form qs).length = qs.length := by
  induction qs generalizing s with
  | nil => rfl
  | cons q qs ih => simp [mkAnswers, ih]

theorem mkAnswers_map_question_id (aid s : Nat) (form : Form)
    (qs : List Question) :
    (mkAnswers aid s form qs).map (fun a => a.question_id) =
      qs.map (fun q => q.id) := by
  induction qs generalizing s with
  | nil => rfl
  | cons q qs ih => simp [mkAnswers, ih]

theorem mkAnswers_mem (aid s : Nat) (form : Form) (qs : List Question) :
    ∀ a ∈ mkAnswers aid s form qs,
      a.assessment_id = aid ∧
      a.answer_text = formGet form (qField a.question_id) := by
  induction qs generalizing s with
  | nil => intro a ha; cases ha
  | cons q qs ih =>
    intro a ha
    rw [mkAnswers, List.mem_cons] at ha
    rcases ha with ha | ha
    · subst ha; exact ⟨rfl, rfl⟩
    · exact ih (s + 1) a ha

theorem mkAnswers_filter_self (aid s : Nat) (form : Form)
    (qs : List Question) :
    (mkAnswers aid s form qs).filter (fun a => a.assessment_id == aid) =
      mkAnswers aid s form qs := by
  induction qs generalizing s with
  | nil => rfl
  | cons q qs ih => simp [mkAnswers, ih]

theorem find?_append_none {α : Type} {p : α → Bool} {l1 l2 : List α}
    (h : l1.find? p = none) : (l1 ++ l2).find? p = l2.find? p := by
  induction l1 with
  | nil => rfl
  | cons x xs ih =>
    rw [List.find?_eq_none] at h
    have hx : p x = false := by
      have := h x (by simp)
      simpa using this
    have hxs : xs.find? p = none := by
      rw [List.find?_eq_none]
      intro y hy
      exact h y (by simp [hy])
    simpa [List.find?, hx] using ih hxs

theorem insertByDesc_all_gt {α : Type} (key : α → Nat) (x : α) (l : List α)
    (h : ∀ y ∈ l, key x < key y) : insertByDesc key x l = l ++ [x] := by
  induction l with
  | nil => rfl
  | cons y ys ih =>
    have hy : key x < key y := h y (by simp)
    have hnot : ¬ key y < key x := by omega
    simp [insertByDesc, hnot, ih (fun z hz => h z (by simp [hz]))]

theorem sortByDesc_of_increasing {α : Type} (key : α → Nat) (l : List α)
    (h : l.Pairwise (fun a b => key a < key b)) :
    sortByDesc key l = l.reverse := by
  induction l with
  | nil => rfl
  | cons x xs ih =>
    rw [List.pairwise_cons] at h
    rw [sortByDesc, ih h.2, insertByDesc_all_gt key x xs.reverse
        (fun y hy => h.1 y (List.mem_reverse.mp hy))]
    simp

theorem mkSeedQuestions_map_text (tid s : Nat) (ts : List String) :
    (mkSeedQuestions tid s ts).map (fun q => q.text) = ts := by
  induction ts generalizing s with
  | nil => rfl
  | cons t ts ih => simp [mkSeedQuestions, ih]

/-- C8: `listAssessments` returns every stored assessment ordered
most-recently-created first.  Creation appends to storage and stamps the
row with the current clock, so creation order is storage order; under the
strictly increasing timestamps this yields, the listing (ORDER BY
created_at DESC) is exactly the reverse of storage order and is strictly
descending in created_at, so every assessment created after another
precedes it. -/
theorem assessments_list_newest_first (db : DB)
    (h : db.assessments.Pairwise (fun a b => a.created_at < b.created_at)) :
    assessments_list db = db.assessments.reverse ∧
    (assessments_list db).Pairwise (fun a b => b.created_at < a.created_at) := by
  have h1 : assessments_list db = db.assessments.reverse :=
    sortByDesc_of_increasing _ _ h
  refine ⟨h1, ?_⟩
  rw [h1]
  exact (List.pairwise_reverse).mpr h

/-- Witness for C8 on a concrete two-assessment store. -/
theorem assessments_list_newest_first_witness :
    dbTwoAssess.assessments.Pairwise (fun a b => a.created_at < b.created_at) ∧
    (assessments_list dbTwoAssess = dbTwoAssess.assessments.reverse ∧
     (assessments_list dbTwoAssess).Pairwise
       (fun a b => b.created_at < a.created_at)) :=
  ⟨by decide, assessments_list_newest_first dbTwoAssess (by decide)⟩

/-- C9: the startup seed only acts when zero templates exist: on an empty
template table it inserts exactly the two fixed templates with their six
verbatim questions each (twelve rows, texts as enumerated), and on any
store with at least one template it changes nothing; in particular
running the seed twice equals running it once. -/
theorem seed_idempotent_and_exact (db : DB) (h : db.templates = []) :
    seed_default_templates db =
      { db with
          templates :=
            [⟨db.next_template_id, "Third-Party Due Diligence Assessment",
              "Due Diligence",
              some "Basic vendor due diligence questionnaire."⟩,
             ⟨db.next_template_id + 1,
              "Data Protection Impact Assessment (DPIA)", "DPIA",
              some "High-level DPIA for internal products."⟩],
          questions := db.questions
            ++ mkSeedQuestions db.next_template_id db.next_question_id
                 dd_questions
            ++ mkSeedQuestions (db.next_template_id + 1)
                 (db.next_question_id + 6) dpia_questions,
          next_template_id := db.next_template_id + 2,
          next_question_id := db.next_question_id + 12 } ∧
    (mkSeedQuestions db.next_template_id db.next_question_id
        dd_questions).map (fun q => q.text) = dd_questions ∧
    (mkSeedQuestions (db.next_template_id + 1) (db.next_question_id + 6)
        dpia_questions).map (fun q => q.text) = dpia_questions ∧
    dd_questions.length = 6 ∧ dpia_questions.length = 6 ∧
    (∀ db3 : DB, db3.templates ≠ [] → seed_default_templates db3 = db3) ∧
    seed_default_templates (seed_default_templates db) =
      seed_default_templates db := by
  have hempty : ¬ db.templates.length > 0 := by simp [h]
  have h1 : seed_default_templates db =
      { db with
          templates :=
            [⟨db.next_template_id, "Third-Party Due Diligence Assessment",
              "Due Diligence",
              some "Basic vendor due diligence questionnaire."⟩,
             ⟨db.next_template_id + 1,
              "Data Protection Impact Assessment (DPIA)", "DPIA",
              some "High-level DPIA for internal products."⟩],
          questions := db.questions
            ++ mkSeedQuestions db.next_template_id db.next_question_id
                 dd_questions
            ++ mkSeedQuestions (db.next_template_id + 1)
                 (db.next_question_id + 6) dpia_questions,
          next_template_id := db.next_template_id + 2,
          next_question_id := db.next_question_id + 12 } := by
    rw [seed_default_templates, if_neg hempty, h]
    simp
  have h2 : ∀ db3 : DB, db3.templates ≠ [] →
      seed_default_templates db3 = db3 := by
    intro db3 h3
    rw [seed_default_templates, if_pos]
    exact List.length_pos.mpr h3
  have h4 : (seed_default_templates db).templates ≠ [] := by
    rw [h1]; simp
  exact ⟨h1, mkSeedQuestions_map_text _ _ _, mkSeedQuestions_map_text _ _ _,
         by decide, by decide, h2, h2 _ h4⟩

/-- Witness for C9 on the empty database. -/
theorem seed_idempotent_and_exact_witness :
    db0.templates = [] ∧
    (seed_default_templates db0 =
      { db0 with
          templates :=
            [⟨db0.next_template_id, "Third-Party Due Diligence Assessment",
              "Due Diligence",
              some "Basic vendor due diligence questionnaire."⟩,
             ⟨db0.next_template_id + 1,
              "Data Protection Impact Assessment (DPIA)", "DPIA",
              some "High-level DPIA for internal products."⟩],
          questions := db0.questions
            ++ mkSeedQuestions db0.next_template_id db0.next_question_id
                 dd_questions
            ++ mkSeedQuestions (db0.next_template_id + 1)
                 (db0.next_question_id + 6) dpia_questions,
          next_template_id := db0.next_template_id + 2,
          next_question_id := db0.next_question_id + 12 } ∧
    (mkSeedQuestions db0.next_template_id db0.next_question_id
        dd_questions).map (fun q => q.text) = dd_questions ∧
    (mkSeedQuestions (db0.next_template_id + 1) (db0.next_question_id + 6)
        dpia_questions).map (fun q => q.text) = dpia_questions ∧
    dd_questions.length = 6 ∧ dpia_questions.length = 6 ∧
    (∀ db3 : DB, db3.templates ≠ [] → seed_default_templates db3 = db3) ∧
    seed_default_templates (seed_default_templates db0) =
      seed_default_templates db0) :=
  ⟨rfl, seed_idempotent_and_exact db0 rfl⟩

/-- C5: adding a question with blank (or absent) text to an existing
template is a silent no-op: the database, and in particular the
template's question list, are unchanged and the handler redirects back
normally; a `NotFoundError` arises exactly when the template id names no
template. -/
theorem addQuestion_blank_noop (db : DB) (tid : Nat) (form : Form)
    (t : Template)
    (ht : findTemplate db tid = some t)
    (hblank : truthy (formGet form "question_text") = false) :
    template_edit_post db tid form = (Outcome.ok t.id, db) ∧
    templateQuestions (template_edit_post db tid form).2 t.id =
      templateQuestions db t.id ∧
    (∀ db3 : DB, ∀ tid3 : Nat, ∀ form3 : Form,
      findTemplate db3 tid3 = none →
      template_edit_post db3 tid3 form3 = (Outcome.notFound, db3)) := by
  have hmain : template_edit_post db tid form = (Outcome.ok t.id, db) := by
    rw [template_edit_post, ht]
    cases hq : formGet form "question_text" with
    | none => simp [hq]
    | some s =>
      rw [hq, truthy] at hblank
      simp [hq, hblank]
  refine ⟨hmain, by rw [hmain], ?_⟩
  intro db3 tid3 form3 h3
  simp [template_edit_post, h3]

/-- Witness for C5: submitting an empty question text to the sample
template changes nothing. -/
theorem addQuestion_blank_noop_witness :
    findTemplate dbT 1 = some tVendor ∧
    truthy (formGet [("question_text", "")] "question_text") = false ∧
    (template_edit_post dbT 1 [("question_text", "")] =
       (Outcome.ok tVendor.id, dbT) ∧
     templateQuestions (template_edit_post dbT 1 [("question_text", "")]).2
         tVendor.id =
       templateQuestions dbT tVendor.id ∧
     (∀ db3 : DB, ∀ tid3 : Nat, ∀ form3 : Form,
       findTemplate db3 tid3 = none →
       template_edit_post db3 tid3 form3 = (Outcome.notFound, db3))) :=
  ⟨by decide, by decide,
   addQuestion_blank_noop dbT 1 [("question_text", "")] tVendor
     (by decide) (by decide)⟩

/-- C6: deleting an existing question removes exactly that question row
and leaves the answers, assessments (and users and templates) untouched,
so every previously recorded answer referencing the question keeps its
content and its assessment, and every assessment view renders exactly as
before; a missing question id yields a `NotFoundError` and no change. -/
theorem question_delete_frame (db : DB) (tid qid : Nat) (q : Question)
    (hq : findQuestion db qid = some q) :
    (∃ db2, question_delete db tid qid = (Outcome.ok tid, db2) ∧
      db2.answers = db.answers ∧
      db2.assessments = db.assessments ∧
      db2.users = db.users ∧
      db2.templates = db.templates ∧
      db2.questions = db.questions.filter (fun x => x.id != qid) ∧
      findQuestion db2 qid = none ∧
      (∀ aid : Nat, assessment_view db2 aid = assessment_view db aid)) ∧
    (∀ db3 : DB, ∀ tid3 qid3 : Nat, findQuestion db3 qid3 = none →
      question_delete db3 tid3 qid3 = (Outcome.notFound, db3)) := by
  constructor
  · refine ⟨{ db with
        questions := db.questions.filter (fun x => x.id != qid) },
      ?_, rfl, rfl, rfl, rfl, rfl, ?_, ?_⟩
    · simp [question_delete, hq]
    · rw [findQuestion, List.find?_eq_none]
      intro x hx
      have hmem := (List.mem_filter.mp hx).2
      simp only [bne_iff_ne, ne_eq] at hmem
      simp [hmem]
    · intro aid; rfl
  · intro db3 tid3 qid3 h3
    simp [question_delete, h3]

/-- Witness for C6: deleting question 1 of the sample store keeps both
recorded answers, including the one referencing question 1. -/
theorem question_delete_frame_witness :
    findQuestion dbAns 1 = some q1 ∧
    ((∃ db2, question_delete dbAns 1 1 = (Outcome.ok 1, db2) ∧
      db2.answers = dbAns.answers ∧
      db2.assessments = dbAns.assessments ∧
      db2.users = dbAns.users ∧
      db2.templates = dbAns.templates ∧
      db2.questions = dbAns.questions.filter (fun x => x.id != 1) ∧
      findQuestion db2 1 = none ∧
      (∀ aid : Nat, assessment_view db2 aid = assessment_view dbAns aid)) ∧
    (∀ db3 : DB, ∀ tid3 qid3 : Nat, findQuestion db3 qid3 = none →
      question_delete db3 tid3 qid3 = (Outcome.notFound, db3))) :=
  ⟨by decide, question_delete_frame dbAns 1 1 q1 (by decide)⟩

theorem find?_id_map (g : Question → Question)
    (hg : ∀ x, (g x).id = x.id) (l : List Question) (qid : Nat) :
    (l.map g).find? (fun x => x.id == qid) =
      (l.find? (fun x => x.id == qid)).map g := by
  induction l with
  | nil => rfl
  | cons x xs ih =>
    simp only [List.map_cons, List.find?, hg x]
    cases hid : (x.id == qid) with
    | true => rfl
    | false => exact ih

theorem question_edit_post_eq (db : DB) (tid qid : Nat) (form : Form)
    (t : Template) (q : Question) (txt : String)
    (ht : findTemplate db tid = some t)
    (hq : findQuestion db qid = some q)
    (htxt : formGet form "text" = some txt) :
    question_edit_post db tid qid form =
      (Outcome.ok tid,
       { db with questions := db.questions.map (fun x =>
           if x.id == qid then
             { x with text := txt,
                      help_text := formGet form "help_text",
                      question_type := formGet form "question_type" }
           else x) }) ∧
    findQuestion
      { db with questions := db.questions.map (fun x =>
          if x.id == qid then
            { x with text := txt,
                     help_text := formGet form "help_text",
                     question_type := formGet form "question_type" }
          else x) } qid =
      some { q with text := txt,
                    help_text := formGet form "help_text",
                    question_type := formGet form "question_type" } := by
  have hq2 : db.questions.find? (fun x => x.id == qid) = some q := hq
  have hqid : (q.id == qid) = true := by
    simpa using List.find?_some hq2
  constructor
  · simp [question_edit_post, ht, hq, htxt]
  · rw [findQuestion]
    rw [find?_id_map _ ?hg db.questions qid]
    case hg =>
      intro x
      cases hx : (x.id == qid) <;> simp [hx]
    rw [findQuestion] at hq
    rw [hq]
    have hiq : q.id = qid := by simpa using hqid
    simp [hiq]

/-- C4: editing an existing question (through an existing path template)
overwrites its text, help text and type unconditionally with the values
submitted this time: no merge with the old values occurs, and help text
or type omitted from the submission become null.  An omitted text field
never yields a successful edit: the NOT NULL commit on `questions.text`
fails and the store is unchanged.  A missing question id yields a
`NotFoundError`. -/
theorem question_edit_overwrites (db : DB) (tid qid : Nat) (form : Form)
    (t : Template) (q : Question) (txt : String)
    (ht : findTemplate db tid = some t)
    (hq : findQuestion db qid = some q)
    (htxt : formGet form "text" = some txt) :
    (∃ db2, question_edit_post db tid qid form = (Outcome.ok tid, db2) ∧
      findQuestion db2 qid = some
        { q with text := txt,
                 help_text := formGet form "help_text",
                 question_type := formGet form "question_type" } ∧
      db2.answers = db.answers ∧
      db2.assessments = db.assessments ∧
      db2.questions.length = db.questions.length) ∧
    (∀ db3 : DB, ∀ tid3 qid3 : Nat, ∀ form3 : Form, ∀ t3 : Template,
      findTemplate db3 tid3 = some t3 → findQuestion db3 qid3 = none →
      question_edit_post db3 tid3 qid3 form3 = (Outcome.notFound, db3)) ∧
    (∀ form4 : Form, formGet form4 "text" = none →
      question_edit_post db tid qid form4 =
        (Outcome.integrityError, db)) := by
  obtain ⟨h1, h2⟩ := question_edit_post_eq db tid qid form t q txt ht hq htxt
  refine ⟨⟨_, h1, h2, rfl, rfl, by simp⟩, ?_, ?_⟩
  · intro db3 tid3 qid3 form3 t3 h3 h4
    simp [question_edit_post, h3, h4]
  · intro form4 h4
    simp [question_edit_post, ht, hq, h4]

/-- Witness for C4: editing question 2 while omitting help text and type
replaces its text and nulls the previously set type. -/
theorem question_edit_overwrites_witness :
    findTemplate dbT 1 = some tVendor ∧
    findQuestion dbT 2 = some q2 ∧
    formGet [("text", "Edited?")] "text" = some "Edited?" ∧
    ((∃ db2,
        question_edit_post dbT 1 2 [("text", "Edited?")] =
          (Outcome.ok 1, db2) ∧
        findQuestion db2 2 = some
          { q2 with text := "Edited?",
                    help_text := formGet [("text", "Edited?")] "help_text",
                    question_type :=
                      formGet [("text", "Edited?")] "question_type" } ∧
        db2.answers = dbT.answers ∧
        db2.assessments = dbT.assessments ∧
        db2.questions.length = dbT.questions.length) ∧
    (∀ db3 : DB, ∀ tid3 qid3 : Nat, ∀ form3 : Form, ∀ t3 : Template,
      findTemplate db3 tid3 = some t3 → findQuestion db3 qid3 = none →
      question_edit_post db3 tid3 qid3 form3 = (Outcome.notFound, db3)) ∧
    (∀ form4 : Form, formGet form4 "text" = none →
      question_edit_post dbT 1 2 form4 =
        (Outcome.integrityError, dbT))) :=
  ⟨by decide, by decide, by decide,
   question_edit_overwrites dbT 1 2 [("text", "Edited?")] tVendor q2
     "Edited?" (by decide) (by decide) (by decide)⟩

/-- C10: the question-delete and question-edit handlers act on the
question named by the path question id without checking that it belongs
to the path template: for a question whose owning template differs from
the path template id, edit still rewrites that question (the path
template merely has to exist), and delete removes it under every path
template id whatsoever, whether or not any such template exists. -/
theorem question_ops_ignore_path_template (db : DB) (tid qid : Nat)
    (form : Form) (t : Template) (q : Question) (txt : String)
    (ht : findTemplate db tid = some t)
    (hq : findQuestion db qid = some q)
    (_hmis : q.template_id ≠ tid)
    (htxt : formGet form "text" = some txt) :
    (∃ db2, question_edit_post db tid qid form = (Outcome.ok tid, db2) ∧
      findQuestion db2 qid = some
        { q with text := txt,
                 help_text := formGet form "help_text",
                 question_type := formGet form "question_type" }) ∧
    (∀ tid3 : Nat, question_delete db tid3 qid =
      (Outcome.ok tid3,
       { db with
           questions := db.questions.filter (fun x => x.id != qid) })) := by
  obtain ⟨h1, h2⟩ := question_edit_post_eq db tid qid form t q txt ht hq htxt
  refine ⟨⟨_, h1, h2⟩, ?_⟩
  intro tid3
  simp [question_delete, hq]

/-- Witness for C10: question 1 belongs to template 1, yet the edit
through template 2 rewrites it, and the delete succeeds under path
template id 99, which names no template. -/
theorem question_ops_ignore_path_template_witness :
    findTemplate dbT2 2 = some tOther ∧
    findQuestion dbT2 1 = some q1 ∧
    q1.template_id ≠ 2 ∧
    formGet [("text", "Hijacked?")] "text" = some "Hijacked?" ∧
    findTemplate dbT2 99 = none ∧
    ((∃ db2,
        question_edit_post dbT2 2 1 [("text", "Hijacked?")] =
          (Outcome.ok 2, db2) ∧
        findQuestion db2 1 = some
          { q1 with text := "Hijacked?",
                    help_text := formGet [("text", "Hijacked?")] "help_text",
                    question_type :=
                      formGet [("text", "Hijacked?")] "question_type" }) ∧
    (∀ tid3 : Nat, question_delete dbT2 tid3 1 =
      (Outcome.ok tid3,
       { dbT2 with
           questions := dbT2.questions.filter (fun x => x.id != 1) }))) :=
  ⟨by decide, by decide, by decide, by decide, by decide,
   question_ops_ignore_path_template dbT2 2 1 [("text", "Hijacked?")]
     tOther q1 "Hijacked?" (by decide) (by decide) (by decide) (by decide)⟩

/-- C2: createAssessment 404s when the template is absent and flashes a
validation error when the submitted name is blank or absent; every run
that does not succeed returns the store unchanged, and every successful
run commits the assessment row together with one answer row per snapshot
question in the same transaction, so no reader observes an assessment
without all of its answers or answers without their assessment. -/
theorem createAssessment_failure_modes (db : DB) (tid now : Nat)
    (form : Form) (o : Outcome) (db2 : DB)
    (h : assessment_new_post db tid form now = (o, db2)) :
    (findTemplate db tid = none → o = Outcome.notFound ∧ db2 = db) ∧
    (∀ t : Template, findTemplate db tid = some t →
      truthy (formGet form "assessment_name") = false →
      o = Outcome.validationError ∧ db2 = db) ∧
    ((∀ i : Nat, o ≠ Outcome.ok i) → db2 = db) ∧
    (∀ i : Nat, o = Outcome.ok i →
      ∃ t n, findTemplate db tid = some t ∧
        formGet form "assessment_name" = some n ∧ n ≠ "" ∧
        i = db.next_assessment_id ∧
        db2.assessments = db.assessments ++
          [⟨i, t.id, n, formGet form "vendor_name",
            formGet form "product_name", now⟩] ∧
        db2.answers = db.answers ++
          mkAnswers i db.next_answer_id form (templateQuestions db t.id) ∧
        db2.answers.length =
          db.answers.length + (templateQuestions db t.id).length) := by
  cases hft : findTemplate db tid with
  | none =>
    simp only [assessment_new_post, hft] at h
    injection h with ho hdb
    refine ⟨fun _ => ⟨ho.symm, hdb.symm⟩, ?_, fun _ => hdb.symm, ?_⟩
    · intro t9 h9 _
      cases h9
    · intro i hoi
      rw [← ho] at hoi; cases hoi
  | some t =>
    cases hname : formGet form "assessment_name" with
    | none =>
      simp only [assessment_new_post, hft, hname, truthy,
        Bool.false_eq_true, if_false] at h
      injection h with ho hdb
      refine ⟨?_, fun _ _ _ => ⟨ho.symm, hdb.symm⟩, fun _ => hdb.symm, ?_⟩
      · intro h9; cases h9
      · intro i hoi
        rw [← ho] at hoi; cases hoi
    | some n =>
      by_cases hn : n = ""
      · subst hn
        simp only [assessment_new_post, hft, hname, truthy,
          bne_self_eq_false, Bool.false_eq_true, if_false] at h
        injection h with ho hdb
        refine ⟨?_, fun _ _ _ => ⟨ho.symm, hdb.symm⟩, fun _ => hdb.symm, ?_⟩
        · intro h9; cases h9
        · intro i hoi
          rw [← ho] at hoi; cases hoi
      · have htr : truthy (some n) = true := by
          simp [truthy, bne_iff_ne, hn]
        simp only [assessment_new_post, hft, hname, htr, if_true] at h
        injection h with ho hdb
        refine ⟨?_, ?_, ?_, ?_⟩
        · intro h9; cases h9
        · intro t9 h9 h10
          rw [htr] at h10; cases h10
        · intro h3
          exact absurd ho.symm (h3 db.next_assessment_id)
        · intro i hoi
          rw [← ho] at hoi
          injection hoi with hi
          subst hi
          refine ⟨t, n, rfl, rfl, hn, rfl, ?_, ?_, ?_⟩
          · rw [← hdb]
          · rw [← hdb]
          · rw [← hdb]
            simp [mkAnswers_length]

/-- Witness for C2 on a concrete failing run: submitting an empty form
leaves the store unchanged with a validation flash. -/
theorem createAssessment_failure_modes_witness :
    assessment_new_post dbT 1 [] 10 = (Outcome.validationError, dbT) ∧
    ((findTemplate dbT 1 = none →
        Outcome.validationError = Outcome.notFound ∧ dbT = dbT) ∧
     (∀ t : Template, findTemplate dbT 1 = some t →
        truthy (formGet [] "assessment_name") = false →
        Outcome.validationError = Outcome.validationError ∧ dbT = dbT) ∧
     ((∀ i : Nat, Outcome.validationError ≠ Outcome.ok i) → dbT = dbT) ∧
     (∀ i : Nat, Outcome.validationError = Outcome.ok i →
        ∃ t n, findTemplate dbT 1 = some t ∧
          formGet [] "assessment_name" = some n ∧ n ≠ "" ∧
          i = dbT.next_assessment_id ∧
          dbT.assessments = dbT.assessments ++
            [⟨i, t.id, n, formGet [] "vendor_name",
              formGet [] "product_name", 10⟩] ∧
          dbT.answers = dbT.answers ++
            mkAnswers i dbT.next_answer_id [] (templateQuestions dbT t.id) ∧
          dbT.answers.length =
            dbT.answers.length + (templateQuestions dbT t.id).length)) :=
  ⟨by decide,
   createAssessment_failure_modes dbT 1 10 [] Outcome.validationError dbT
     (by decide)⟩

/-- C1: a successful createAssessment snapshots the template's current
question list and creates exactly one answer per question, in question
order: the answer of question q holds the submitted value of form field
`question_{q.id}` when present and absent content otherwise, and the
assessment view then returns the new assessment with exactly these
answers keyed by question id. -/
theorem createAssessment_one_answer_per_question (db : DB) (tid now : Nat)
    (form : Form) (t : Template) (n : String)
    (ht : findTemplate db tid = some t)
    (hn : formGet form "assessment_name" = some n)
    (hne : n ≠ "")
    (hfreshAns : ∀ a ∈ db.answers, a.assessment_id ≠ db.next_assessment_id)
    (hfreshAssess : ∀ a ∈ db.assessments, a.id ≠ db.next_assessment_id) :
    ∃ db2,
      assessment_new_post db tid form now =
        (Outcome.ok db.next_assessment_id, db2) ∧
      assessmentAnswers db2 db.next_assessment_id =
        mkAnswers db.next_assessment_id db.next_answer_id form
          (templateQuestions db t.id) ∧
      (assessmentAnswers db2 db.next_assessment_id).length =
        (templateQuestions db t.id).length ∧
      (assessmentAnswers db2 db.next_assessment_id).map
          (fun a => a.question_id) =
        (templateQuestions db t.id).map (fun q => q.id) ∧
      (∀ a ∈ assessmentAnswers db2 db.next_assessment_id,
        a.answer_text = formGet form (qField a.question_id)) ∧
      assessment_view db2 db.next_assessment_id =
        some (⟨db.next_assessment_id, t.id, n, formGet form "vendor_name",
               formGet form "product_name", now⟩,
              answersByQuestion
                (assessmentAnswers db2 db.next_assessment_id)) := by
  have htr : truthy (some n) = true := by
    simp [truthy, bne_iff_ne, hne]
  have hrun : assessment_new_post db tid form now =
      (Outcome.ok db.next_assessment_id,
       { db with
           assessments := db.assessments ++
             [⟨db.next_assessment_id, t.id, n, formGet form "vendor_name",
               formGet form "product_name", now⟩],
           answers := db.answers ++
             mkAnswers db.next_assessment_id db.next_answer_id form
               (templateQuestions db t.id),
           next_assessment_id := db.next_assessment_id + 1,
           next_answer_id :=
             db.next_answer_id + (templateQuestions db t.id).length }) := by
    simp [assessment_new_post, ht, hn, htr]
  have hAns : assessmentAnswers
      { db with
          assessments := db.assessments ++
            [⟨db.next_assessment_id, t.id, n, formGet form "vendor_name",
              formGet form "product_name", now⟩],
          answers := db.answers ++
            mkAnswers db.next_assessment_id db.next_answer_id form
              (templateQuestions db t.id),
          next_assessment_id := db.next_assessment_id + 1,
          next_answer_id :=
            db.next_answer_id + (templateQuestions db t.id).length }
      db.next_assessment_id =
      mkAnswers db.next_assessment_id db.next_answer_id form
        (templateQuestions db t.id) := by
    rw [assessmentAnswers]
    show (db.answers ++ _).filter _ = _
    rw [List.filter_append]
    have h1 : db.answers.filter
        (fun a => a.assessment_id == db.next_assessment_id) = [] := by
      rw [List.filter_eq_nil_iff]
      intro a ha
      simp [hfreshAns a ha]
    rw [h1, mkAnswers_filter_self]
    simp
  have hfind : findAssessment
      { db with
          assessments := db.assessments ++
            [⟨db.next_assessment_id, t.id, n, formGet form "vendor_name",
              formGet form "product_name", now⟩],
          answers := db.answers ++
            mkAnswers db.next_assessment_id db.next_answer_id form
              (templateQuestions db t.id),
          next_assessment_id := db.next_assessment_id + 1,
          next_answer_id :=
            db.next_answer_id + (templateQuestions db t.id).length }
      db.next_assessment_id =
      some ⟨db.next_assessment_id, t.id, n, formGet form "vendor_name",
            formGet form "product_name", now⟩ := by
    rw [findAssessment]
    show (db.assessments ++ _).find? _ = _
    rw [find?_append_none]
    · simp
    · rw [List.find?_eq_none]
      intro a ha
      simp [hfreshAssess a ha]
  refine ⟨_, hrun, hAns, ?_, ?_, ?_, ?_⟩
  · rw [hAns, mkAnswers_length]
  · rw [hAns, mkAnswers_map_question_id]
  · rw [hAns]
    intro a ha
    exact (mkAnswers_mem _ _ _ _ a ha).2
  · rw [assessment_view, hfind]
    rfl

/-- Witness for C1: the spec's own example — template with questions
q1, q2 and submitted answers only for q1 — yields exactly two answers,
q1's holding "yes", q2's empty, both returned keyed by question id. -/
theorem createAssessment_one_answer_per_question_witness :
    findTemplate dbT 1 = some tVendor ∧
    formGet acmeForm "assessment_name" = some "Acme Review" ∧
    "Acme Review" ≠ "" ∧
    (∀ a ∈ dbT.answers, a.assessment_id ≠ dbT.next_assessment_id) ∧
    (∀ a ∈ dbT.assessments, a.id ≠ dbT.next_assessment_id) ∧
    (∃ db2,
      assessment_new_post dbT 1 acmeForm 10 =
        (Outcome.ok dbT.next_assessment_id, db2) ∧
      assessmentAnswers db2 dbT.next_assessment_id =
        mkAnswers dbT.next_assessment_id dbT.next_answer_id acmeForm
          (templateQuestions dbT tVendor.id) ∧
      (assessmentAnswers db2 dbT.next_assessment_id).length =
        (templateQuestions dbT tVendor.id).length ∧
      (assessmentAnswers db2 dbT.next_assessment_id).map
          (fun a => a.question_id) =
        (templateQuestions dbT tVendor.id).map (fun q => q.id) ∧
      (∀ a ∈ assessmentAnswers db2 dbT.next_assessment_id,
        a.answer_text = formGet acmeForm (qField a.question_id)) ∧
      assessment_view db2 dbT.next_assessment_id =
        some (⟨dbT.next_assessment_id, tVendor.id, "Acme Review",
               formGet acmeForm "vendor_name",
               formGet acmeForm "product_name", 10⟩,
              answersByQuestion
                (assessmentAnswers db2 dbT.next_assessment_id))) ∧
    assessment_view (assessment_new_post dbT 1 acmeForm 10).2 1 =
      some (⟨1, 1, "Acme Review", none, none, 10⟩,
            [(1, ⟨1, 1, 1, some "yes"⟩), (2, ⟨2, 1, 2, none⟩)]) :=
  ⟨by decide, by decide, by decide, by decide, by decide,
   createAssessment_one_answer_per_question dbT 1 10 acmeForm tVendor
     "Acme Review" (by decide) (by decide) (by decide) (by decide)
     (by decide),
   by decide⟩

/-- C3 counterexample: submitting the register form without a password
field, for a fresh username, does not re-show the form with an error:
the handler reaches `set_password(None)` and werkzeug raises an
unhandled TypeError.  The handler's only error-flash path is the
duplicate-username one; missing required fields are never validated. -/
theorem register_missing_password_not_form_error :
    (register db0 [("username", "bob")]).1 = Outcome.typeError ∧
    (register db0 [("username", "bob")]).2 = db0 ∧
    Outcome.typeError ≠ Outcome.conflictError ∧
    Outcome.typeError ≠ Outcome.validationError := by
  decide

/-- C3 amended: register creates a User and redirects to login on
success; registering an existing username re-shows the form with an
error, leaving the store unchanged, and the first registration remains
valid for login.  Missing fields are not validated: a missing password
raises an unhandled TypeError from password hashing, and a missing
username with a password present fails the NOT NULL commit; both crashes
leave the store unchanged (and are not an error-flashed form). -/
theorem register_spec (db : DB) (s p : String) (form form2 : Form)
    (hu : formGet form "username" = some s)
    (hp : formGet form "password" = some p)
    (hno : ∀ u ∈ db.users, u.username ≠ s)
    (hu2 : formGet form2 "username" = some s) :
    ∃ db2,
      register db form = (Outcome.ok db.next_user_id, db2) ∧
      db2.users = db.users ++ [⟨db.next_user_id, s, hashPassword p⟩] ∧
      login db2 (some s) (some p) = Outcome.ok db.next_user_id ∧
      register db2 form2 = (Outcome.conflictError, db2) ∧
      (∀ f3 : Form, usernameConflict db (formGet f3 "username") = false →
        formGet f3 "password" = none →
        register db f3 = (Outcome.typeError, db)) ∧
      (∀ f4 : Form, ∀ q : String, formGet f4 "username" = none →
        formGet f4 "password" = some q →
        register db f4 = (Outcome.integrityError, db)) := by
  have hconf : usernameConflict db (some s) = false := by
    rw [usernameConflict, List.any_eq_false]
    intro u hu9
    simp [hno u hu9]
  have hrun : register db form =
      (Outcome.ok db.next_user_id,
       { db with
           users := db.users ++ [⟨db.next_user_id, s, hashPassword p⟩],
           next_user_id := db.next_user_id + 1 }) := by
    simp [register, hu, hp, hconf]
  have hfindu :
      (db.users ++ [(⟨db.next_user_id, s, hashPassword p⟩ : User)]).find?
        (fun u => u.username == s) =
      some ⟨db.next_user_id, s, hashPassword p⟩ := by
    rw [find?_append_none]
    · simp
    · rw [List.find?_eq_none]
      intro u hu9
      simp [hno u hu9]
  refine ⟨_, hrun, rfl, ?_, ?_, ?_, ?_⟩
  · rw [login]
    simp only [hfindu]
    simp [checkPassword]
  · have hconf2 : usernameConflict
        { db with
            users := db.users ++ [⟨db.next_user_id, s, hashPassword p⟩],
            next_user_id := db.next_user_id + 1 }
        (formGet form2 "username") = true := by
      rw [hu2, usernameConflict, List.any_eq_true]
      exact ⟨⟨db.next_user_id, s, hashPassword p⟩, by simp, by simp⟩
    simp [register, hconf2]
  · intro f3 h3a h3b
    simp [register, h3a, h3b]
  · intro f4 q h4a h4b
    simp [register, h4a, h4b, usernameConflict]

/-- Witness for C3's amended claim: register "alice"/"pw1" on the empty
store, then observe the conflict on re-registration and the valid login. -/
theorem register_spec_witness :
    formGet [("username", "alice"), ("password", "pw1")] "username" =
      some "alice" ∧
    formGet [("username", "alice"), ("password", "pw1")] "password" =
      some "pw1" ∧
    (∀ u ∈ db0.users, u.username ≠ "alice") ∧
    (∃ db2,
      register db0 [("username", "alice"), ("password", "pw1")] =
        (Outcome.ok db0.next_user_id, db2) ∧
      db2.users = db0.users ++ [⟨db0.next_user_id, "alice",
        hashPassword "pw1"⟩] ∧
      login db2 (some "alice") (some "pw1") = Outcome.ok db0.next_user_id ∧
      register db2 [("username", "alice"), ("password", "pw1")] =
        (Outcome.conflictError, db2) ∧
      (∀ f3 : Form, usernameConflict db0 (formGet f3 "username") = false →
        formGet f3 "password" = none →
        register db0 f3 = (Outcome.typeError, db0)) ∧
      (∀ f4 : Form, ∀ q : String, formGet f4 "username" = none →
        formGet f4 "password" = some q →
        register db0 f4 = (Outcome.integrityError, db0))) :=
  ⟨by decide, by decide, by decide,
   register_spec db0 "alice" "pw1"
     [("username", "alice"), ("password", "pw1")]
     [("username", "alice"), ("password", "pw1")]
     (by decide) (by decide) (by decide) (by decide)⟩

/-- C7: for every template, both the editing view and the
assessment-filling view render the same question list, the stored rows
filtered to the template in storage order; when storage order is id
ascending (as every insertion keeps it, since ids are assigned from the
increasing counter), that list is ascending by question id, and adding a
question preserves the invariant. -/
theorem question_order_id_ascending (db : DB) (tid : Nat) (t : Template)
    (hs : db.questions.Pairwise (fun a b => a.id < b.id))
    (ht : findTemplate db tid = some t) :
    template_edit_get db tid = some (t, templateQuestions db t.id) ∧
    assessment_new_get db tid = some (t, templateQuestions db t.id) ∧
    (templateQuestions db t.id).Pairwise (fun a b => a.id < b.id) ∧
    (∀ form : Form, ∀ o : Outcome, ∀ db2 : DB,
      template_edit_post db tid form = (o, db2) →
      (∀ x ∈ db.questions, x.id < db.next_question_id) →
      db2.questions.Pairwise (fun a b => a.id < b.id)) := by
  refine ⟨?_, ?_, ?_, ?_⟩
  · rw [template_edit_get, ht]; rfl
  · rw [assessment_new_get, ht]; rfl
  · exact hs.sublist (List.filter_sublist _)
  · intro form o db2 h hfresh
    have hdb2 : db2 = (template_edit_post db tid form).2 := by rw [h]
    rw [hdb2]
    cases hq : formGet form "question_text" with
    | none =>
      simpa [template_edit_post, ht, hq] using hs
    | some sq =>
      by_cases hsq : sq = ""
      · simpa [template_edit_post, ht, hq, hsq] using hs
      · have hb : (sq != "") = true := by simp [bne_iff_ne, hsq]
        simp only [template_edit_post, ht, hq, hb, if_true]
        rw [List.pairwise_append]
        refine ⟨hs, by simp, ?_⟩
        intro a ha b hb2
        rw [List.mem_singleton] at hb2
        rw [hb2]
        exact hfresh a ha

/-- Witness for C7 on the sample store: the two views agree and list
questions 1, 2 in ascending id order. -/
theorem question_order_id_ascending_witness :
    dbT.questions.Pairwise (fun a b => a.id < b.id) ∧
    findTemplate dbT 1 = some tVendor ∧
    (template_edit_get dbT 1 = some (tVendor, templateQuestions dbT tVendor.id) ∧
     assessment_new_get dbT 1 = some (tVendor, templateQuestions dbT tVendor.id) ∧
     (templateQuestions dbT tVendor.id).Pairwise (fun a b => a.id < b.id) ∧
     (∀ form : Form, ∀ o : Outcome, ∀ db2 : DB,
       template_edit_post dbT 1 form = (o, db2) →
       (∀ x ∈ dbT.questions, x.id < dbT.next_question_id) →
       db2.questions.Pairwise (fun a b => a.id < b.id))) :=
  ⟨by decide, by decide,
   question_order_id_ascending dbT 1 tVendor (by decide) (by decide)⟩

end App
